import Mathlib

/-!
Verification of the authentication, account-lockout and audit core of the
geriatric administration system (`apps/core/models.py` and
`apps/core/backends.py`), as a shallow embedding.

Modelling conventions:
* Time is a `Nat` counting minutes since an arbitrary epoch; `timezone.now()`
  becomes an explicit `now : Nat` parameter.  Calendar dates (used by the
  password-expiry check) are recovered as `now / 1440` (minutes per day).
* Django's `settings.GERIATRIC_ADMIN_SETTINGS` dict is the `AdminSettings`
  structure; a `dict.get(KEY, default)` becomes `Option.getD`.
* Password hashing is abstracted: a `User` stores the unique plaintext that
  its hash verifies, so `check_password` is string equality.  TOTP
  verification is abstracted by an oracle `secret -> token -> Bool` standing
  for `pyotp.TOTP(secret).verify(token, valid_window=1)`.
* The user table is a `List User`; `User.objects.get(...)` with its
  `DoesNotExist` / `MultipleObjectsReturned` outcomes becomes a filter over
  that list inspected for zero, one, or several matches.
* `user.centers` is a Django many-to-many related manager built from
  `GeriatricCenterManager`, which extends `ActiveModelManager`
  (managers.py:14-23): its base queryset already filters the *centers* by
  `is_active=True`.  The traversal of the through table never consults the
  `UserCenterAssignment` row's own `is_active` soft-delete flag.  The model
  therefore stores the raw through rows (`center_assignments`) and defines
  `User.centers` as the related-manager queryset over them.
* `AuditTrail.objects.create(action='LOGIN', ...)` becomes appending an
  `AuditEntry` to the returned log list.
-/

/-- One geriatric center, as referenced through the `centers` many-to-many
relation of a user.  `is_active` is the soft-delete flag of `BaseModel`. -/
structure Center where
  cid : Nat
  is_active : Bool
deriving DecidableEq

/-- One `UserCenterAssignment` through row (models.py:697): the linked center
plus the row's own `BaseModel` soft-delete flag. -/
structure UserCenterAssignment where
  center : Center
  is_active : Bool
deriving DecidableEq

/-- The security-relevant state of `core.models.User`. -/
structure User where
  username : String
  employee_id : String
  /-- plaintext whose hash is stored; `check_password` compares against it -/
  password : String
  is_active : Bool
  is_superuser : Bool
  is_multi_center_admin : Bool
  two_factor_enabled : Bool
  /-- `two_factor_secret` is a blank-able CharField; `""` means unset -/
  two_factor_secret : String
  must_change_password : Bool
  password_changed_at : Option Nat
  failed_login_attempts : Nat
  last_failed_login : Option Nat
  account_locked_until : Option Nat
  last_login : Option Nat
  /-- the raw `UserCenterAssignment` through rows of the `centers` relation -/
  center_assignments : List UserCenterAssignment
deriving DecidableEq

/-- The `user.centers` related manager: joins every through row (the
assignment's own `is_active` is never consulted) and then applies
`ActiveModelManager.get_queryset`'s `is_active=True` filter to the centers
(managers.py:19-23, models.py:671). -/
def User.centers (u : User) : List Center :=
  (u.center_assignments.map (fun a => a.center)).filter (fun c => c.is_active)

/-- `settings.GERIATRIC_ADMIN_SETTINGS`: every key may be absent. -/
structure AdminSettings where
  max_login_attempts : Option Nat
  lockout_duration_minutes : Option Nat
  password_expiry_days : Option Nat
  emergency_access_enabled : Option Bool
  emergency_access_code : Option String
deriving DecidableEq

/-- `.get('MAX_LOGIN_ATTEMPTS', 5)` -/
def AdminSettings.maxAttempts (s : AdminSettings) : Nat :=
  s.max_login_attempts.getD 5

/-- `.get('LOCKOUT_DURATION_MINUTES', 30)` -/
def AdminSettings.lockoutDuration (s : AdminSettings) : Nat :=
  s.lockout_duration_minutes.getD 30

/-- `.get('PASSWORD_EXPIRY_DAYS', 90)` -/
def AdminSettings.passwordExpiryDays (s : AdminSettings) : Nat :=
  s.password_expiry_days.getD 90

/-- `.get('EMERGENCY_ACCESS_ENABLED', False)` -/
def AdminSettings.emergencyEnabled (s : AdminSettings) : Bool :=
  s.emergency_access_enabled.getD false

/-- A settings dict with no keys set: every lookup yields its default. -/
def defaultSettings : AdminSettings :=
  ⟨none, none, none, none, none⟩

/-- `User.check_password`: hash verification, abstracted to equality with the
stored plaintext. -/
def check_password (u : User) (p : String) : Bool :=
  p == u.password

/-- `django.contrib.auth.hashers.check_password` returns `False` when handed
`None`; used where a backend does not guard a possibly-missing password. -/
def check_password_opt (u : User) (p : Option String) : Bool :=
  match p with
  | none => false
  | some pw => check_password u pw

/-- `User.is_account_locked` (models.py:464): locked iff `account_locked_until`
is set and `now` is strictly before it. -/
def is_account_locked (u : User) (now : Nat) : Bool :=
  match u.account_locked_until with
  | some t => now < t
  | none => false

/-- `User.lock_account` (models.py:472): set `account_locked_until` to
`now + duration_minutes`. -/
def lock_account (u : User) (now : Nat) (duration_minutes : Nat) : User :=
  { u with account_locked_until := some (now + duration_minutes) }

/-- `User.unlock_account` (models.py:483): clear the lock and both failure
fields. -/
def unlock_account (u : User) : User :=
  { u with account_locked_until := none,
           failed_login_attempts := 0,
           last_failed_login := none }

/-- `User.record_failed_login` (models.py:492): increment the counter, stamp
`last_failed_login`, and lock when the incremented counter reaches
`MAX_LOGIN_ATTEMPTS`. -/
def record_failed_login (s : AdminSettings) (u : User) (now : Nat) : User :=
  let u1 := { u with failed_login_attempts := u.failed_login_attempts + 1,
                     last_failed_login := some now }
  if s.maxAttempts ≤ u1.failed_login_attempts then
    lock_account u1 now s.lockoutDuration
  else
    u1

/-- `User.record_successful_login` (models.py:507): reset the failure counter
and `last_failed_login`, stamp `last_login`.  The saved fields are exactly
`failed_login_attempts`, `last_failed_login`, `last_login`. -/
def record_successful_login (u : User) (now : Nat) : User :=
  { u with failed_login_attempts := 0,
           last_failed_login := none,
           last_login := some now }

/-- `User.needs_password_change` (models.py:516): explicit flag, else compare
calendar dates of `now` and `password_changed_at + PASSWORD_EXPIRY_DAYS`. -/
def needs_password_change (s : AdminSettings) (u : User) (now : Nat) : Bool :=
  if u.must_change_password then true
  else
    match u.password_changed_at with
    | some t =>
        if (t + s.passwordExpiryDays * 1440) / 1440 < now / 1440 then true
        else false
    | none => false

/-- `User.has_center_access` (models.py:537): multi-center admins always pass;
otherwise `self.centers.filter(id=center).exists()` — the only explicit filter
is the center id; center activity is imposed implicitly by the related
manager (`User.centers`), while the assignment row's own `is_active` is never
checked. -/
def has_center_access (u : User) (center : Nat) : Bool :=
  if u.is_multi_center_admin then true
  else !((u.centers.filter (fun c => c.cid == center)).isEmpty)

/-- One `AuditTrail` row as written by the authentication backends:
`action='LOGIN'`, the resolved user (by username) when one was passed, and the
`additional_data` fields that identify the attempt. -/
structure AuditEntry where
  action : String
  /-- `user=` argument of the create call, `none` when no user was resolved -/
  user : Option String
  /-- `additional_data['attempted_username']` (may be absent/None) -/
  attempted_username : Option String
  success : Bool
  reason : String
  /-- `additional_data['emergency_access']` flag of the emergency backend -/
  emergency : Bool
deriving DecidableEq

/-- Entry written by `GeriatricAuthenticationBackend._log_authentication_attempt`. -/
def loginEntry (attempted : Option String) (user : Option String)
    (success : Bool) (reason : String) : AuditEntry :=
  ⟨"LOGIN", user, attempted, success, reason, false⟩

/-- Entry written by `EmergencyAccessBackend._log_emergency_access_attempt`. -/
def emergencyEntry (attempted : Option String) (user : Option String)
    (success : Bool) (reason : String) : AuditEntry :=
  ⟨"LOGIN", user, attempted, success, reason, true⟩

/-- Outcome of `User.objects.get(Q(username=i) | Q(employee_id=i), is_active=True)`. -/
inductive Resolution
  | found (u : User)
  | notFound
  | multipleFound
deriving DecidableEq

/-- The identifier lookup of `GeriatricAuthenticationBackend.authenticate`
(backends.py:47): match either identity field, restricted to active users. -/
def resolve_user (db : List User) (ident : String) : Resolution :=
  match db.filter (fun u => (u.username == ident || u.employee_id == ident) && u.is_active) with
  | [] => Resolution.notFound
  | [u] => Resolution.found u
  | _ :: _ :: _ => Resolution.multipleFound

/-- Result of one call to `GeriatricAuthenticationBackend.authenticate`:
the returned user (`none` when authentication yields `None`), the persisted
state of the resolved account (`none` when no account was resolved), the
audit-trail rows created by the call, and the transient
`_password_change_required` mark set on the returned object. -/
structure AuthOutcome where
  result : Option User
  userAfter : Option User
  log : List AuditEntry
  password_change_required : Bool
deriving DecidableEq

/-- `GeriatricAuthenticationBackend.authenticate` (backends.py:30). -/
def authenticate (s : AdminSettings) (db : List User)
    (username password : Option String) (now : Nat) : AuthOutcome :=
  match username, password with
  | some uname, some pwd =>
    match resolve_user db uname with
    | Resolution.notFound =>
        ⟨none, none, [loginEntry (some uname) none false "user_not_found"], false⟩
    | Resolution.multipleFound =>
        ⟨none, none, [loginEntry (some uname) none false "multiple_users_found"], false⟩
    | Resolution.found user =>
      if is_account_locked user now then
        ⟨none, some user,
          [loginEntry (some uname) (some user.username) false "account_locked"], false⟩
      else if check_password user pwd then
        let pcr := needs_password_change s user now
        let log1 :=
          if pcr then
            [loginEntry (some uname) (some user.username) false "password_change_required"]
          else []
        if !user.is_superuser && !user.is_multi_center_admin
            && (user.centers.filter (fun c => c.is_active)).isEmpty then
          ⟨none, some user,
            log1 ++ [loginEntry (some uname) (some user.username) false "no_center_assignment"],
            pcr⟩
        else
          let user1 := record_successful_login user now
          ⟨some user1, some user1,
            log1 ++ [loginEntry (some uname) (some user1.username) true "success"], pcr⟩
      else
        let user1 := record_failed_login s user now
        ⟨none, some user1,
          [loginEntry (some uname) (some user1.username) false "invalid_password"], false⟩
  | _, _ => ⟨none, none, [], false⟩

/-- `TwoFactorAuthenticationBackend._verify_totp_token` (backends.py:272):
fails closed on a missing secret, else defers to the TOTP library, modelled by
`oracle secret token`. -/
def verify_totp_token (oracle : String → String → Bool) (u : User) (token : String) : Bool :=
  if u.two_factor_secret == "" then false
  else oracle u.two_factor_secret token

/-- Result of one call to `TwoFactorAuthenticationBackend.authenticate`, with
the transient `_requires_2fa` mark. -/
structure Auth2Outcome where
  result : Option User
  userAfter : Option User
  log : List AuditEntry
  password_change_required : Bool
  requires_2fa : Bool
deriving DecidableEq

/-- `TwoFactorAuthenticationBackend.authenticate` (backends.py:215): run the
base backend, then the TOTP stage for users with `two_factor_enabled`. -/
def authenticate_2fa (oracle : String → String → Bool) (s : AdminSettings)
    (db : List User) (username password totp_token : Option String) (now : Nat) :
    Auth2Outcome :=
  let o := authenticate s db username password now
  match o.result with
  | none => ⟨none, o.userAfter, o.log, o.password_change_required, false⟩
  | some user =>
    if user.two_factor_enabled then
      match totp_token with
      | none =>
          ⟨some user, o.userAfter,
            o.log ++ [loginEntry username (some user.username) false "2fa_token_required"],
            o.password_change_required, true⟩
      | some token =>
        if verify_totp_token oracle user token then
          ⟨some user, o.userAfter,
            o.log ++ [loginEntry username (some user.username) true "2fa_success"],
            o.password_change_required, false⟩
        else
          ⟨none, o.userAfter,
            o.log ++ [loginEntry username (some user.username) false "invalid_2fa_token"],
            o.password_change_required, false⟩
    else
      ⟨some user, o.userAfter, o.log, o.password_change_required, false⟩

/-- `EmergencyAccessBackend._verify_emergency_code` (backends.py:385):
`expected_code and code == expected_code`, truth-valued — falsy whenever the
configured code is absent or the empty string. -/
def verify_emergency_code (s : AdminSettings) (code : String) : Bool :=
  match s.emergency_access_code with
  | none => false
  | some expected => if expected == "" then false else code == expected

/-- Result of `EmergencyAccessBackend.authenticate`; `integrityError` stands
for the unhandled `MultipleObjectsReturned` of the superuser lookup. -/
inductive EmergencyResult
  | ok (user : Option User) (log : List AuditEntry)
  | integrityError
deriving DecidableEq

/-- `EmergencyAccessBackend.authenticate` (backends.py:311). -/
def emergency_authenticate (s : AdminSettings) (db : List User)
    (username password emergency_code : Option String) : EmergencyResult :=
  if !s.emergencyEnabled then EmergencyResult.ok none []
  else
    match emergency_code with
    | none => EmergencyResult.ok none []
    | some code =>
      if !verify_emergency_code s code then
        EmergencyResult.ok none
          [emergencyEntry username none false "invalid_emergency_code"]
      else
        match db.filter (fun u => some u.username == username && u.is_superuser && u.is_active) with
        | [] =>
            EmergencyResult.ok none [emergencyEntry username none false "user_not_found"]
        | [user] =>
          if !check_password_opt user password then
            EmergencyResult.ok none
              [emergencyEntry username (some user.username) false "invalid_password"]
          else
            EmergencyResult.ok (some user)
              [emergencyEntry username (some user.username) true "emergency_access_granted"]
        | _ :: _ :: _ => EmergencyResult.integrityError

/-! Sample data used by concrete witnesses and counterexamples. -/

/-- A plain active user with one active center assignment. -/
def baseUser : User :=
  { username := "alice", employee_id := "E1", password := "pw",
    is_active := true, is_superuser := false, is_multi_center_admin := false,
    two_factor_enabled := false, two_factor_secret := "",
    must_change_password := false, password_changed_at := none,
    failed_login_attempts := 0, last_failed_login := none,
    account_locked_until := none, last_login := none,
    center_assignments := [⟨⟨1, true⟩, true⟩] }

/-- A user one failure short of the default lockout threshold. -/
def uC2 : User := { baseUser with failed_login_attempts := 4 }

/-- Claim C1, counterexample: `record_successful_login` does not clear
`account_locked_until`.  For a user whose (expired) lock timestamp is still
set, the field is not null after a successful authentication is recorded, so
the claim as stated is false. -/
theorem C1_counterexample :
    ((record_successful_login
        { baseUser with account_locked_until := some 10, failed_login_attempts := 7 }
        100).account_locked_until == none) = false := by
  decide

/-- Claim C1 (amended): `record_successful_login` resets the failed-attempt
counter to 0 and clears `last_failed_login`, regardless of prior failures, but
leaves `account_locked_until` exactly as it was (it is not cleared; a
successful authentication can only be recorded once any lock has already
expired, so the stale timestamp no longer locks the account). -/
theorem C1_success_resets_counter (u : User) (now : Nat) :
    (record_successful_login u now).failed_login_attempts = 0 ∧
    (record_successful_login u now).last_failed_login = none ∧
    (record_successful_login u now).account_locked_until = u.account_locked_until :=
  ⟨rfl, rfl, rfl⟩

/-- Claim C2: once a failure brings the counter to the threshold, the account
is locked at every instant strictly before `locked_until`, and while locked
the authentication chain returns no user — for every supplied password,
including the correct one. -/
theorem C2_lockout_rejects (s : AdminSettings) (db : List User) (uname pwd : String)
    (u : User) (tf now : Nat)
    (hdb : resolve_user db uname = Resolution.found (record_failed_login s u tf))
    (hth : s.maxAttempts ≤ u.failed_login_attempts + 1)
    (hnow : now < tf + s.lockoutDuration) :
    is_account_locked (record_failed_login s u tf) now = true ∧
    (authenticate s db (some uname) (some pwd) now).result = none := by
  have hlock : is_account_locked (record_failed_login s u tf) now = true := by
    simp [record_failed_login, lock_account, is_account_locked, hth]
    exact hnow
  refine ⟨hlock, ?_⟩
  simp [authenticate, hdb, hlock]

/-- Claim C2 witness: a user at 4 prior failures fails once at time 4 under
default settings; at time 20 (before 4 + 30) the account is locked and a
login with the correct password is rejected. -/
theorem C2_lockout_rejects_witness :
    is_account_locked (record_failed_login defaultSettings uC2 4) 20 = true ∧
    (authenticate defaultSettings [record_failed_login defaultSettings uC2 4]
        (some "alice") (some "pw") 20).result = none :=
  C2_lockout_rejects defaultSettings [record_failed_login defaultSettings uC2 4]
    "alice" "pw" uC2 4 20 (by decide) (by decide) (by decide)

/-- Claim C3: `record_failed_login` increments the counter by one and stamps
`last_failed_login := now`; when the incremented counter reaches the
configured threshold the lock is set to `now` plus the configured duration,
otherwise the lock field is untouched; the defaults are 5 attempts and 30
minutes. -/
theorem C3_record_failed_login (s : AdminSettings) (u : User) (now : Nat) :
    (record_failed_login s u now).failed_login_attempts = u.failed_login_attempts + 1 ∧
    (record_failed_login s u now).last_failed_login = some now ∧
    (s.maxAttempts ≤ u.failed_login_attempts + 1 →
      (record_failed_login s u now).account_locked_until = some (now + s.lockoutDuration)) ∧
    (u.failed_login_attempts + 1 < s.maxAttempts →
      (record_failed_login s u now).account_locked_until = u.account_locked_until) ∧
    defaultSettings.maxAttempts = 5 ∧ defaultSettings.lockoutDuration = 30 := by
  by_cases h : s.maxAttempts ≤ u.failed_login_attempts + 1
  · refine ⟨?_, ?_, ?_, ?_, rfl, rfl⟩
    · simp [record_failed_login, lock_account, h]
    · simp [record_failed_login, lock_account, h]
    · intro _
      simp [record_failed_login, lock_account, h]
    · intro hlt
      omega
  · refine ⟨?_, ?_, ?_, ?_, rfl, rfl⟩
    · simp [record_failed_login, lock_account, h]
    · simp [record_failed_login, lock_account, h]
    · intro hle
      exact absurd hle h
    · intro _
      simp [record_failed_login, lock_account, h]

/-- Claim C3 witness: at 4 prior failures under default settings, a failure at
time 12 makes the counter 5, stamps the failure time, and locks until 42. -/
theorem C3_record_failed_login_witness :
    (record_failed_login defaultSettings uC2 12).failed_login_attempts = 5 ∧
    (record_failed_login defaultSettings uC2 12).last_failed_login = some 12 ∧
    (record_failed_login defaultSettings uC2 12).account_locked_until = some 42 := by
  have h := C3_record_failed_login defaultSettings uC2 12
  exact ⟨by simpa using h.1, h.2.1, by simpa using h.2.2.1 (by decide)⟩

/-- Claim C4: when a lock has expired (`locked_until ≤ now`) the account is no
longer locked, yet the failure counter still holds its pre-expiry value (no
operation reset it), so if it already reached the threshold a single further
`record_failed_login` increments it and immediately installs a fresh lock at
`now + lockout_duration`. -/
theorem C4_expired_lock_relocks (s : AdminSettings) (u : User) (texp now : Nat)
    (hlock : u.account_locked_until = some texp)
    (hexp : texp ≤ now)
    (hth : s.maxAttempts ≤ u.failed_login_attempts) :
    is_account_locked u now = false ∧
    (record_failed_login s u now).failed_login_attempts = u.failed_login_attempts + 1 ∧
    (record_failed_login s u now).account_locked_until = some (now + s.lockoutDuration) := by
  have h : s.maxAttempts ≤ u.failed_login_attempts + 1 := le_trans hth (Nat.le_succ _)
  refine ⟨?_, ?_, ?_⟩
  · simp [is_account_locked, hlock]
    omega
  · simp [record_failed_login, lock_account, h]
  · simp [record_failed_login, lock_account, h]

/-- Claim C4 witness: a user locked until time 34 with counter 5; at time 40
the lock has expired, the counter is still 5, and one further failure re-locks
until 70 with counter 6. -/
theorem C4_expired_lock_relocks_witness :
    is_account_locked { baseUser with failed_login_attempts := 5, account_locked_until := some 34 } 40 = false ∧
    (record_failed_login defaultSettings
      { baseUser with failed_login_attempts := 5, account_locked_until := some 34 } 40).failed_login_attempts = 6 ∧
    (record_failed_login defaultSettings
      { baseUser with failed_login_attempts := 5, account_locked_until := some 34 } 40).account_locked_until = some 70 := by
  have h := C4_expired_lock_relocks defaultSettings
    { baseUser with failed_login_attempts := 5, account_locked_until := some 34 }
    34 40 rfl (by decide) (by decide)
  exact ⟨h.1, by simpa using h.2.1, by simpa using h.2.2⟩

/-- A user with a correct password whose account demands a password change. -/
def uC5 : User := { baseUser with must_change_password := true }

/-- An inactive user holding the correct password. -/
def uC6 : User := { baseUser with is_active := false }

/-- A superuser who is not a multi-center admin and has no active center. -/
def uC7 : User := { baseUser with is_superuser := true, center_assignments := [] }

/-- Claim C5, counterexample: a single login attempt can create two audit
entries, not exactly one.  A user with the correct password whose
`must_change_password` flag is set first gets a `password_change_required`
entry and then — because the chain continues instead of stopping — a
`success` entry, so the attempt's log length is 2, refuting "never more than
one". -/
theorem C5_counterexample :
    ((authenticate defaultSettings [uC5] (some "alice") (some "pw") 0).log.length == 1) = false
    ∧ ((authenticate defaultSettings [uC5] (some "alice") (some "pw") 0).log.map
        (fun e => e.reason) == ["password_change_required", "success"]) = true := by
  constructor
  · decide
  · decide

/-- Claim C5 (amended): every attempt with both credentials supplied produces
at least one `action='LOGIN'` audit entry, and every entry of the attempt has
`action='LOGIN'`; but the count is not always one — the base chain emits up to
two entries, because a correct-password attempt with a pending
password-change requirement logs `password_change_required` and then
continues to a second terminal entry. -/
theorem C5_audit_per_attempt (s : AdminSettings) (db : List User)
    (uname pwd : String) (now : Nat) :
    1 ≤ (authenticate s db (some uname) (some pwd) now).log.length ∧
    (authenticate s db (some uname) (some pwd) now).log.length ≤ 2 ∧
    (authenticate s db (some uname) (some pwd) now).log.all
      (fun e => e.action == "LOGIN") = true := by
  cases h : resolve_user db uname with
  | notFound => simp [authenticate, h, loginEntry]
  | multipleFound => simp [authenticate, h, loginEntry]
  | found user =>
    simp only [authenticate, h]
    split_ifs <;> simp [loginEntry]

/-- Claim C6, counterexample: an inactive account with the correct password is
rejected, but its audit trace is byte-for-byte the trace of a wholly unknown
identity (`reason='user_not_found'`) — there is no distinct `inactive`
terminal state, refuting distinguishability. -/
theorem C6_counterexample :
    ((authenticate defaultSettings [uC6] (some "alice") (some "pw") 5).log ==
      (authenticate defaultSettings [] (some "alice") (some "pw") 5).log) = true
    ∧ ((authenticate defaultSettings [uC6] (some "alice") (some "pw") 5).log.map
        (fun e => e.reason) == ["user_not_found"]) = true := by
  constructor
  · decide
  · decide

/-- Claim C6 (amended): an attempt against an account that exists only in
inactive form (the active-filtered lookup finds nothing) is always rejected,
even with the correct password; no account state is persisted, so the failure
counter is not incremented; and the single audit entry carries reason
`user_not_found` — the same terminal state as an unknown identity, not a
distinct `inactive` state. -/
theorem C6_inactive_rejected (s : AdminSettings) (db : List User)
    (uname pwd : String) (now : Nat) (u : User)
    (hmem : u ∈ db) (hname : u.username = uname)
    (hinactive : u.is_active = false) (hpw : check_password u pwd = true)
    (hnoactive : db.filter
      (fun v => (v.username == uname || v.employee_id == uname) && v.is_active) = []) :
    authenticate s db (some uname) (some pwd) now =
      ⟨none, none, [loginEntry (some uname) none false "user_not_found"], false⟩ := by
  have hres : resolve_user db uname = Resolution.notFound := by
    unfold resolve_user
    rw [hnoactive]
  simp [authenticate, hres]

/-- Claim C6 witness: the inactive user `uC6` with its correct password. -/
theorem C6_inactive_rejected_witness :
    authenticate defaultSettings [uC6] (some "alice") (some "pw") 5 =
      ⟨none, none, [loginEntry (some "alice") none false "user_not_found"], false⟩ :=
  C6_inactive_rejected defaultSettings [uC6] "alice" "pw" 5 uC6
    (by decide) (by decide) (by decide) (by decide) (by decide)

/-- Claim C7, counterexample: the unit-membership gate also exempts
superusers, not only multi-unit admins.  A superuser with the correct
password, `is_multi_center_admin = false` and no active center assignment is
accepted (the claim demands rejection), and `record_successful_login` runs. -/
theorem C7_counterexample :
    (uC7.is_multi_center_admin == false) = true
    ∧ (uC7.center_assignments.isEmpty == true) = true
    ∧ ((authenticate defaultSettings [uC7] (some "alice") (some "pw") 9).result == none) = false
    ∧ ((authenticate defaultSettings [uC7] (some "alice") (some "pw") 9).userAfter ==
        some (record_successful_login uC7 9)) = true := by
  refine ⟨by decide, by decide, by decide, by decide⟩

/-- Claim C7 (amended): an account that supplies the correct password but is
not a superuser, not a multi-unit admin, and holds no active center
assignment is rejected without `record_successful_login`: the persisted state
is exactly the pre-attempt state (failure counter, last-failed timestamp and
lock fields all untouched). -/
theorem C7_no_center_rejected (s : AdminSettings) (db : List User)
    (uname pwd : String) (u : User) (now : Nat)
    (hres : resolve_user db uname = Resolution.found u)
    (hlock : is_account_locked u now = false)
    (hpw : check_password u pwd = true)
    (hsup : u.is_superuser = false)
    (hmulti : u.is_multi_center_admin = false)
    (hcenters : (u.centers.filter (fun c => c.is_active)).isEmpty = true) :
    (authenticate s db (some uname) (some pwd) now).result = none ∧
    (authenticate s db (some uname) (some pwd) now).userAfter = some u := by
  simp [authenticate, hres, hlock, hpw, hsup, hmulti, hcenters]

/-- Claim C7 witness: a non-superuser with one inactive center assignment and
the correct password is rejected with state untouched. -/
theorem C7_no_center_rejected_witness :
    (authenticate defaultSettings [{ baseUser with center_assignments := [⟨⟨1, false⟩, true⟩] }]
      (some "alice") (some "pw") 3).result = none ∧
    (authenticate defaultSettings [{ baseUser with center_assignments := [⟨⟨1, false⟩, true⟩] }]
      (some "alice") (some "pw") 3).userAfter = some { baseUser with center_assignments := [⟨⟨1, false⟩, true⟩] } :=
  C7_no_center_rejected defaultSettings [{ baseUser with center_assignments := [⟨⟨1, false⟩, true⟩] }]
    "alice" "pw" { baseUser with center_assignments := [⟨⟨1, false⟩, true⟩] } 3
    (by decide) (by decide) (by decide) (by decide) (by decide) (by decide)

/-- A non-admin user whose only link to center 3 (an active center) is a
soft-deleted assignment row (`UserCenterAssignment.is_active = false`). -/
def uC8 : User := { baseUser with center_assignments := [⟨⟨3, true⟩, false⟩] }

/-- A 2FA-enabled user with a configured secret and the correct password. -/
def uC9 : User := { baseUser with two_factor_enabled := true, two_factor_secret := "SECRET" }

/-- A settings dict with emergency access explicitly disabled and an empty
emergency code configured. -/
def gsC10 : AdminSettings := ⟨none, none, none, some false, some ""⟩

/-- Claim C8, counterexample: the center lookup of `has_center_access` never
consults the assignment row's own `is_active` flag (the many-to-many join
uses the through table directly; only the *centers* are filtered by the
`ActiveModelManager` queryset).  A non-multi-center user whose every
assignment row is soft-deleted — so no active `UnitAssignment` links actor
and unit — is still granted access to the active center the dead row points
at, while the claim demands `false` for every unit with no active
assignment. -/
theorem C8_counterexample :
    (uC8.is_multi_center_admin == false) = true
    ∧ (uC8.center_assignments.all (fun a => !a.is_active)) = true
    ∧ has_center_access uC8 3 = true := by
  refine ⟨by decide, by decide, by decide⟩

/-- Claim C8 (amended): `has_center_access` is true for every multi-unit
admin; otherwise it is true exactly when some assignment row — whether or not
the assignment itself is active, since soft-deleted assignments still count —
links the actor to an *active* center with that id.  Inactive centers are
excluded by the related manager's implicit `is_active=True` filter; the
assignment's own active flag is never checked. -/
theorem C8_has_center_access (u : User) (center : Nat) :
    has_center_access u center = true ↔
      u.is_multi_center_admin = true ∨
      ∃ a ∈ u.center_assignments, a.center.cid = center ∧ a.center.is_active = true := by
  by_cases h : u.is_multi_center_admin
  · simp [has_center_access, h]
  · have hne : ∀ l : List Center, (!l.isEmpty) = true ↔ ∃ c, c ∈ l := by
      intro l
      cases l with
      | nil => simp
      | cons x xs => simp
    simp only [has_center_access, User.centers, h, if_false, Bool.false_eq_true, hne]
    simp only [List.mem_filter, List.mem_map, h, false_or]
    constructor
    · rintro ⟨c, ⟨⟨a, ha, hac⟩, hact⟩, hcid⟩
      subst hac
      exact ⟨a, ha, by simpa using hcid, hact⟩
    · rintro ⟨a, ha, hcid, hact⟩
      exact ⟨a.center, ⟨⟨a, ha, rfl⟩, hact⟩, by simpa using hcid⟩

/-- Shared lemma: the fully successful branch of the base backend — resolved,
unlocked, correct password, unit gate passed — returns and persists
`record_successful_login`. -/
theorem authenticate_success_case (s : AdminSettings) (db : List User)
    (uname pwd : String) (u : User) (now : Nat)
    (hres : resolve_user db uname = Resolution.found u)
    (hlock : is_account_locked u now = false)
    (hpw : check_password u pwd = true)
    (hgate : (!u.is_superuser && !u.is_multi_center_admin
              && (u.centers.filter (fun c => c.is_active)).isEmpty) = false) :
    (authenticate s db (some uname) (some pwd) now).result =
      some (record_successful_login u now) ∧
    (authenticate s db (some uname) (some pwd) now).userAfter =
      some (record_successful_login u now) := by
  simp [authenticate, hres, hlock, hpw, hgate]

/-- Claim C9: for a 2FA-enabled account that passes every password-stage check,
`record_successful_login` has already reset the failure state when the TOTP
stage runs; an invalid TOTP code then makes the backend return no user while
the persisted account has `failed_login_attempts = 0` and
`last_failed_login = null` — second-factor failures never accumulate toward a
lockout. -/
theorem C9_totp_failure_after_reset (oracle : String → String → Bool)
    (s : AdminSettings) (db : List User) (uname pwd token : String)
    (u : User) (now : Nat)
    (hres : resolve_user db uname = Resolution.found u)
    (hlock : is_account_locked u now = false)
    (hpw : check_password u pwd = true)
    (hgate : u.is_superuser = true ∨ u.is_multi_center_admin = true
             ∨ (u.centers.filter (fun c => c.is_active)).isEmpty = false)
    (h2fa : u.two_factor_enabled = true)
    (htok : verify_totp_token oracle u token = false) :
    (authenticate_2fa oracle s db (some uname) (some pwd) (some token) now).result = none ∧
    (authenticate_2fa oracle s db (some uname) (some pwd) (some token) now).userAfter =
      some (record_successful_login u now) ∧
    (record_successful_login u now).failed_login_attempts = 0 ∧
    (record_successful_login u now).last_failed_login = none := by
  have hgate2 : (!u.is_superuser && !u.is_multi_center_admin
                 && (u.centers.filter (fun c => c.is_active)).isEmpty) = false := by
    rcases hgate with h | h | h <;> simp [h]
  obtain ⟨hr, hu⟩ := authenticate_success_case s db uname pwd u now hres hlock hpw hgate2
  have h2fa' : (record_successful_login u now).two_factor_enabled = true := h2fa
  have htok' : verify_totp_token oracle (record_successful_login u now) token = false := htok
  refine ⟨?_, ?_, rfl, rfl⟩
  · simp [authenticate_2fa, hr, hu, h2fa', htok']
  · simp [authenticate_2fa, hr, hu, h2fa', htok']

/-- Claim C9 witness: `uC9` with its correct password, an oracle rejecting
every token, and an invalid code "123456"; the backend returns no user and the
persisted counter is 0 with no failure timestamp. -/
theorem C9_totp_failure_after_reset_witness :
    (authenticate_2fa (fun _ _ => false) defaultSettings [uC9]
      (some "alice") (some "pw") (some "123456") 8).result = none ∧
    (authenticate_2fa (fun _ _ => false) defaultSettings [uC9]
      (some "alice") (some "pw") (some "123456") 8).userAfter =
      some (record_successful_login uC9 8) ∧
    (record_successful_login uC9 8).failed_login_attempts = 0 ∧
    (record_successful_login uC9 8).last_failed_login = none :=
  C9_totp_failure_after_reset (fun _ _ => false) defaultSettings [uC9]
    "alice" "pw" "123456" uC9 8
    (by decide) (by decide) (by decide)
    (Or.inr (Or.inr (by decide))) (by decide) (by decide)

/-- Claim C10: emergency access fails closed.  When the enable flag is absent
or false, `EmergencyAccessBackend.authenticate` returns no user and writes no
audit entry, for every input; when the configured emergency code is absent or
empty, the code check is falsy for every supplied code (including the empty
one) and consequently no call of the backend can return a user. -/
theorem C10_emergency_fails_closed (s : AdminSettings) :
    ((s.emergency_access_enabled = none ∨ s.emergency_access_enabled = some false) →
      ∀ db username password code,
        emergency_authenticate s db username password code = EmergencyResult.ok none []) ∧
    ((s.emergency_access_code = none ∨ s.emergency_access_code = some "") →
      (∀ code, verify_emergency_code s code = false) ∧
      (∀ db username password ecode u log,
        emergency_authenticate s db username password ecode ≠
          EmergencyResult.ok (some u) log)) := by
  constructor
  · intro h db username password code
    have he : s.emergencyEnabled = false := by
      rcases h with h | h <;> simp [AdminSettings.emergencyEnabled, h]
    simp [emergency_authenticate, he]
  · intro h
    have hv : ∀ code, verify_emergency_code s code = false := by
      intro code
      rcases h with h | h <;> simp [verify_emergency_code, h]
    refine ⟨hv, ?_⟩
    intro db username password ecode u log
    by_cases he : s.emergencyEnabled = true
    · cases ecode with
      | none => simp [emergency_authenticate, he]
      | some code => simp [emergency_authenticate, he, hv code]
    · have he' : s.emergencyEnabled = false := by
        revert he
        cases s.emergencyEnabled <;> simp
      simp [emergency_authenticate, he']

/-- Claim C10 witness: under `gsC10` (flag `false`, empty configured code) a
concrete emergency attempt yields no user and no log, the empty supplied code
fails the check, and the concrete call cannot equal a granted outcome. -/
theorem C10_emergency_fails_closed_witness :
    emergency_authenticate gsC10 [baseUser] (some "alice") (some "pw") (some "X") =
      EmergencyResult.ok none [] ∧
    verify_emergency_code gsC10 "" = false ∧
    emergency_authenticate gsC10 [baseUser] (some "alice") (some "pw") (some "X") ≠
      EmergencyResult.ok (some baseUser) [] := by
  refine ⟨?_, ?_, ?_⟩
  · exact (C10_emergency_fails_closed gsC10).1 (Or.inr rfl) [baseUser]
      (some "alice") (some "pw") (some "X")
  · exact ((C10_emergency_fails_closed gsC10).2 (Or.inr rfl)).1 ""
  · exact ((C10_emergency_fails_closed gsC10).2 (Or.inr rfl)).2 [baseUser]
      (some "alice") (some "pw") (some "X") baseUser []
